import Mathlib

/-
Shallow embedding of `day1/run/sim.py`, a command-line helper that drives the
QuestaSim toolchain (vlib, vlog, vsim).  The effects of the script are modelled
explicitly: the filesystem is a list of existing paths, printed output is a
list of printed strings, and each external process invocation is recorded in a
call trace.  The exit codes of external processes and the outcome of the
OS-level recursive delete are supplied by oracles, so the theorems quantify
over every possible environment behaviour.
-/

namespace Sim

/-- Splitting accumulator: pushes a fresh component at each slash character. -/
def splitCharsAux (c : Char) (acc : List (List Char)) : List (List Char) :=
  match acc with
  | [] => [[c]]
  | h :: t => if c = '/' then [] :: h :: t else (c :: h) :: t

/-- Split a path string into its slash-separated components. -/
def splitPath (p : String) : List String :=
  (p.data.foldr splitCharsAux [[]]).map (fun cs => String.mk cs)

/-- Join path components back with slashes. -/
def joinComponents : List String → String
  | [] => ""
  | [x] => x
  | x :: y :: rest => x ++ "/" ++ joinComponents (y :: rest)

/-- All slash-separated ancestor paths of a path, shortest first, the path
itself last.  Used to model the recursive directory creation of
`os.makedirs`, which creates every missing intermediate directory. -/
def pathPrefixes (p : String) : List String :=
  (List.range (splitPath p).length).map
    (fun i => joinComponents ((splitPath p).take (i + 1)))

/-- Model of `os.path.join a b` for the uses in the script: a non-empty
relative head that does not end in a separator, joined to a relative tail. -/
def os_path_join (a b : String) : String := a ++ "/" ++ b

/-- Configuration constant `SRC_DIR` from the script. -/
def SRC_DIR : String := "../src"

/-- Configuration constant `SIM_DIR` from the script. -/
def SIM_DIR : String := "../sim"

/-- Configuration constant `VERILOG_FILES` from the script. -/
def VERILOG_FILES : List String :=
  [os_path_join SRC_DIR "d1_design.v",
   os_path_join SRC_DIR "d1_test.v"]

/-- Configuration constant `TOP_MODULE` from the script. -/
def TOP_MODULE : String := "d1_test"

/-- Configuration constant `VSIM_OPTIONS` from the script. -/
def VSIM_OPTIONS : List String := ["-vopt", "-voptargs=+acc"]

/-- Observable state of one run of the script: the set of existing filesystem
paths, the lines printed so far, and the trace of external commands invoked
so far (each an argv list), in order. -/
structure State where
  fs : List String
  output : List String
  calls : List (List String)
deriving DecidableEq

/-- Model of `os.path.exists`. -/
def os_path_exists (p : String) (fs : List String) : Bool := fs.contains p

/-- Model of `os.makedirs p`: creates `p` together with every missing
ancestor directory. -/
def os_makedirs (p : String) (fs : List String) : List String :=
  fs ++ (pathPrefixes p).filter (fun q => !(fs.contains q))

/-- `ensure_dirs` from the script: create `../quartus` when missing, then
create `SIM_DIR` when missing. -/
def ensure_dirs (s : State) : State :=
  let fs1 := if os_path_exists "../quartus" s.fs then s.fs
             else os_makedirs "../quartus" s.fs
  let fs2 := if os_path_exists SIM_DIR fs1 then fs1
             else os_makedirs SIM_DIR fs1
  { s with fs := fs2 }

/-- The exception `subprocess.check_call` raises when the child process exits
with a non-zero status code. -/
structure CalledProcessError where
  returncode : Nat
  cmd : List String
deriving DecidableEq

/-- `run_command` from the script: print the rendered command line, invoke the
child process (recorded in the call trace), and fail with
`CalledProcessError` when the exit code supplied by the environment oracle
`exec` is non-zero. -/
def run_command (exec : List String → Nat) (cmd : List String) (s : State) :
    State × Except CalledProcessError Unit :=
  let s2 : State :=
    { s with
      output := s.output ++ ["Running: " ++ String.intercalate " " cmd]
      calls := s.calls ++ [cmd] }
  (s2, if exec cmd = 0 then Except.ok () else Except.error ⟨exec cmd, cmd⟩)

/-- `simulate` from the script: ensure directories, then `vlib`, then `vlog`
over all configured source files, then the batch-mode `vsim` run.  An
exception raised by an earlier step propagates and skips the later steps. -/
def simulate (exec : List String → Nat) (s : State) :
    State × Except CalledProcessError Unit :=
  let s0 := ensure_dirs s
  match run_command exec ["vlib", SIM_DIR] s0 with
  | (s1, Except.error e) => (s1, Except.error e)
  | (s1, Except.ok _) =>
    match run_command exec (["vlog", "-work", SIM_DIR] ++ VERILOG_FILES) s1 with
    | (s2, Except.error e) => (s2, Except.error e)
    | (s2, Except.ok _) =>
      run_command exec
        (["vsim"] ++ VSIM_OPTIONS ++
          ["-c",
           "-do", "log -r /* ; run -all; quit",
           TOP_MODULE,
           "-work", SIM_DIR,
           "-l", os_path_join SIM_DIR "simulation.log",
           "-wlf", os_path_join SIM_DIR "waveform.wlf"]) s2

/-- `simulate_gui` from the script: same preparation, library creation and
compilation as `simulate`, then a `vsim` invocation without the batch flags
and without log or waveform path arguments. -/
def simulate_gui (exec : List String → Nat) (s : State) :
    State × Except CalledProcessError Unit :=
  let s0 := ensure_dirs s
  match run_command exec ["vlib", SIM_DIR] s0 with
  | (s1, Except.error e) => (s1, Except.error e)
  | (s1, Except.ok _) =>
    match run_command exec (["vlog", "-work", SIM_DIR] ++ VERILOG_FILES) s1 with
    | (s2, Except.error e) => (s2, Except.error e)
    | (s2, Except.ok _) =>
      run_command exec
        (["vsim"] ++ VSIM_OPTIONS ++
          ["-do", "log -r /*",
           TOP_MODULE,
           "-work", SIM_DIR]) s2

/-- `view_wave` from the script: a single `vsim -view` invocation on the
configured waveform file, with no directory preparation. -/
def view_wave (exec : List String → Nat) (s : State) :
    State × Except CalledProcessError Unit :=
  run_command exec ["vsim", "-view", os_path_join SIM_DIR "waveform.wlf"] s

/-- True when `p` is the path `root` itself or lies strictly below it. -/
def isUnder (root p : String) : Bool :=
  p == root || List.isPrefixOf (root ++ "/").data p.data

/-- Functional effect of a fully successful recursive delete: every path at or
below `path` disappears. -/
def removeTree (path : String) (fs : List String) : List String :=
  fs.filter (fun q => !(isUnder path q))

/-- Environment oracle for one OS-level recursive delete: either it succeeds,
or some OS error (missing directory, permission denied, ...) interrupts it,
leaving a residual filesystem. -/
inductive RmtreeOutcome where
  | ok : RmtreeOutcome
  | oserror : String → List String → RmtreeOutcome
deriving DecidableEq

/-- Model of `shutil.rmtree path ignoreErrors`: on success the subtree is
removed; on an OS error the error is raised unless `ignoreErrors` is true, in
which case the error is discarded and the residual filesystem is kept.  A
missing `path` is the outcome `oserror "FileNotFoundError" fs` with the
filesystem unchanged. -/
def shutil_rmtree (path : String) (ignoreErrors : Bool) (outcome : RmtreeOutcome)
    (fs : List String) : Except String (List String) :=
  match outcome with
  | RmtreeOutcome.ok => Except.ok (removeTree path fs)
  | RmtreeOutcome.oserror msg residual =>
      if ignoreErrors then Except.ok residual else Except.error msg

/-- `clean` from the script: `shutil.rmtree(SIM_DIR, ignore_errors=True)`
followed by printing a confirmation message. -/
def clean (outcome : RmtreeOutcome) (s : State) : State × Except String Unit :=
  match shutil_rmtree SIM_DIR true outcome s.fs with
  | Except.error e => (s, Except.error e)
  | Except.ok fs2 =>
      ({ s with fs := fs2, output := s.output ++ ["Cleaned simulation directory."] },
       Except.ok ())

/-- The help text printed by `print_help` (one `print` call of a fixed
multi-line string). -/
def help_text : String :=
  "\nUsage: python sim.py [command]\n\nCommands:\n  simulate       : Run simulation in batch mode.\n  simulate_gui   : Run simulation in GUI mode.\n  view_wave      : View the generated waveform.\n  clean          : Clean the simulation directory.\n  help           : Display this help message.\n"

/-- `print_help` from the script. -/
def print_help (s : State) : State :=
  { s with output := s.output ++ [help_text] }

/-- Process exit status resulting from an action: 0 when it returned
normally, 1 when it raised an uncaught exception (CPython exits with status
1 on an unhandled exception). -/
def exitOf {ε : Type} : Except ε Unit → Nat
  | Except.ok _ => 0
  | Except.error _ => 1

/-- The `__main__` block of the script.  `sys_argv` is the full `sys.argv`
(script name first).  The returned number is the process exit status: 1 for
the explicit `sys.exit(1)` on missing argument, 1 for an uncaught exception
from an action, and 0 when the script runs to the end, which includes the
unknown-command branch since it performs no `sys.exit` call. -/
def main_block (exec : List String → Nat) (outcome : RmtreeOutcome)
    (sys_argv : List String) (s : State) : State × Nat :=
  match sys_argv with
  | [] => (print_help s, 1)
  | [_] => (print_help s, 1)
  | _ :: cmd :: _ =>
    if cmd = "simulate" then
      ((simulate exec s).1, exitOf (simulate exec s).2)
    else if cmd = "simulate_gui" then
      ((simulate_gui exec s).1, exitOf (simulate_gui exec s).2)
    else if cmd = "view_wave" then
      ((view_wave exec s).1, exitOf (view_wave exec s).2)
    else if cmd = "clean" then
      ((clean outcome s).1, exitOf (clean outcome s).2)
    else if cmd = "help" then (print_help s, 0)
    else (print_help { s with output := s.output ++ ["Unknown command: " ++ cmd] }, 0)

/-- The `vlib` command line built by `simulate` and `simulate_gui`. -/
def vlib_cmd : List String := ["vlib", SIM_DIR]

/-- The `vlog` command line built by `simulate` and `simulate_gui`. -/
def vlog_cmd : List String := ["vlog", "-work", SIM_DIR] ++ VERILOG_FILES

/-- The batch-mode `vsim` command line built by `simulate`. -/
def vsim_batch_cmd : List String :=
  ["vsim"] ++ VSIM_OPTIONS ++
    ["-c",
     "-do", "log -r /* ; run -all; quit",
     TOP_MODULE,
     "-work", SIM_DIR,
     "-l", os_path_join SIM_DIR "simulation.log",
     "-wlf", os_path_join SIM_DIR "waveform.wlf"]

/-- The GUI-mode `vsim` command line built by `simulate_gui`. -/
def vsim_gui_cmd : List String :=
  ["vsim"] ++ VSIM_OPTIONS ++
    ["-do", "log -r /*",
     TOP_MODULE,
     "-work", SIM_DIR]

/-- The `vsim -view` command line built by `view_wave`. -/
def view_wave_cmd : List String :=
  ["vsim", "-view", os_path_join SIM_DIR "waveform.wlf"]

/-- An environment oracle in which every external command succeeds. -/
def execAllZero : List String → Nat := fun _ => 0

/-- An initial state with an empty filesystem, no output and no calls. -/
def initState : State := { fs := [], output := [], calls := [] }

/-- A state in which both configured directories (and their parent) exist. -/
def dirsState : State :=
  { fs := ["..", "../quartus", "../sim"], output := [], calls := [] }

/-- A state in which the simulation directory exists and contains files. -/
def simState : State :=
  { fs := ["..", "../sim", "../sim/simulation.log", "../sim/waveform.wlf"],
    output := [], calls := [] }

/-- An environment oracle in which the compilation command fails with exit
code 2 and every other command succeeds. -/
def execVlogFails : List String → Nat :=
  fun cmd => if cmd = ["vlog", "-work", SIM_DIR] ++ VERILOG_FILES then 2 else 0

lemma contains_iff (fs : List String) (q : String) :
    fs.contains q = true ↔ q ∈ fs := List.elem_iff

lemma mem_os_makedirs_left {q : String} {fs : List String} (p : String)
    (h : q ∈ fs) : q ∈ os_makedirs p fs :=
  List.mem_append.mpr (Or.inl h)

lemma mem_os_makedirs_of_mem_prefixes {p q : String} (fs : List String)
    (hq : q ∈ pathPrefixes p) : q ∈ os_makedirs p fs := by
  by_cases hf : q ∈ fs
  · exact mem_os_makedirs_left p hf
  · refine List.mem_append.mpr (Or.inr (List.mem_filter.mpr ⟨hq, ?_⟩))
    simp [contains_iff, hf]

lemma mem_os_makedirs_elim {p q : String} {fs : List String}
    (h : q ∈ os_makedirs p fs) : q ∈ fs ∨ q ∈ pathPrefixes p := by
  rcases List.mem_append.mp h with h | h
  · exact Or.inl h
  · exact Or.inr (List.mem_filter.mp h).1

lemma os_path_exists_eq_true_iff (p : String) (fs : List String) :
    os_path_exists p fs = true ↔ p ∈ fs := contains_iff fs p

lemma os_path_exists_eq_false_iff (p : String) (fs : List String) :
    os_path_exists p fs = false ↔ p ∉ fs := by
  constructor
  · intro h hm
    rw [(os_path_exists_eq_true_iff p fs).mpr hm] at h
    cases h
  · intro hm
    cases hx : os_path_exists p fs
    · rfl
    · exact absurd ((os_path_exists_eq_true_iff p fs).mp hx) hm

lemma isUnder_self (p : String) : isUnder p p = true := by
  simp [isUnder]

lemma sim_mem_os_makedirs_quartus (fs : List String) :
    SIM_DIR ∈ os_makedirs "../quartus" fs ↔ SIM_DIR ∈ fs := by
  constructor
  · intro h
    rcases mem_os_makedirs_elim h with h | h
    · exact h
    · exact absurd h (by decide)
  · exact mem_os_makedirs_left _

/-- C8: the directory-preparation routine guarantees that both configured
directories exist afterwards; when one was absent it is created together
with every missing ancestor; and when both already exist the state is left
unchanged. -/
theorem ensure_dirs_spec (s : State) :
    os_path_exists "../quartus" (ensure_dirs s).fs = true ∧
    os_path_exists SIM_DIR (ensure_dirs s).fs = true ∧
    (os_path_exists "../quartus" s.fs = false →
      (pathPrefixes "../quartus").all
        (fun q => (ensure_dirs s).fs.contains q) = true) ∧
    (os_path_exists SIM_DIR s.fs = false →
      (pathPrefixes SIM_DIR).all
        (fun q => (ensure_dirs s).fs.contains q) = true) ∧
    (os_path_exists "../quartus" s.fs = true →
      os_path_exists SIM_DIR s.fs = true →
      ensure_dirs s = s) := by
  by_cases h1 : "../quartus" ∈ s.fs
  · by_cases h2 : SIM_DIR ∈ s.fs
    · have hfs : (ensure_dirs s).fs = s.fs := by
        simp [ensure_dirs, os_path_exists, h1, h2]
      refine ⟨?_, ?_, ?_, ?_, ?_⟩
      · rw [os_path_exists_eq_true_iff, hfs]; exact h1
      · rw [os_path_exists_eq_true_iff, hfs]; exact h2
      · intro habs
        exact absurd h1 ((os_path_exists_eq_false_iff _ _).mp habs)
      · intro habs
        exact absurd h2 ((os_path_exists_eq_false_iff _ _).mp habs)
      · intro _ _
        simp [ensure_dirs, os_path_exists, h1, h2]
    · have hfs : (ensure_dirs s).fs = os_makedirs SIM_DIR s.fs := by
        simp [ensure_dirs, os_path_exists, h1, h2]
      refine ⟨?_, ?_, ?_, ?_, ?_⟩
      · rw [os_path_exists_eq_true_iff, hfs]
        exact mem_os_makedirs_left _ h1
      · rw [os_path_exists_eq_true_iff, hfs]
        exact mem_os_makedirs_of_mem_prefixes _ (by decide)
      · intro habs
        exact absurd h1 ((os_path_exists_eq_false_iff _ _).mp habs)
      · intro _
        rw [List.all_eq_true]
        intro q hq
        rw [contains_iff, hfs]
        exact mem_os_makedirs_of_mem_prefixes _ hq
      · intro _ habs
        exact absurd ((os_path_exists_eq_true_iff _ _).mp habs) h2
  · by_cases h2 : SIM_DIR ∈ s.fs
    · have hm : SIM_DIR ∈ os_makedirs "../quartus" s.fs :=
        (sim_mem_os_makedirs_quartus s.fs).mpr h2
      have hfs : (ensure_dirs s).fs = os_makedirs "../quartus" s.fs := by
        simp [ensure_dirs, os_path_exists, h1, hm]
      refine ⟨?_, ?_, ?_, ?_, ?_⟩
      · rw [os_path_exists_eq_true_iff, hfs]
        exact mem_os_makedirs_of_mem_prefixes _ (by decide)
      · rw [os_path_exists_eq_true_iff, hfs]
        exact hm
      · intro _
        rw [List.all_eq_true]
        intro q hq
        rw [contains_iff, hfs]
        exact mem_os_makedirs_of_mem_prefixes _ hq
      · intro habs
        exact absurd h2 ((os_path_exists_eq_false_iff _ _).mp habs)
      · intro habs _
        exact absurd ((os_path_exists_eq_true_iff _ _).mp habs) h1
    · have hm : SIM_DIR ∉ os_makedirs "../quartus" s.fs := fun hx =>
        h2 ((sim_mem_os_makedirs_quartus s.fs).mp hx)
      have hfs : (ensure_dirs s).fs =
          os_makedirs SIM_DIR (os_makedirs "../quartus" s.fs) := by
        simp [ensure_dirs, os_path_exists, h1, hm]
      refine ⟨?_, ?_, ?_, ?_, ?_⟩
      · rw [os_path_exists_eq_true_iff, hfs]
        exact mem_os_makedirs_left _
          (mem_os_makedirs_of_mem_prefixes _ (by decide))
      · rw [os_path_exists_eq_true_iff, hfs]
        exact mem_os_makedirs_of_mem_prefixes _ (by decide)
      · intro _
        rw [List.all_eq_true]
        intro q hq
        rw [contains_iff, hfs]
        exact mem_os_makedirs_left _ (mem_os_makedirs_of_mem_prefixes _ hq)
      · intro _
        rw [List.all_eq_true]
        intro q hq
        rw [contains_iff, hfs]
        exact mem_os_makedirs_of_mem_prefixes _ hq
      · intro habs _
        exact absurd ((os_path_exists_eq_true_iff _ _).mp habs) h1

/-- Witness for C8 at concrete states: creation from the empty filesystem and
idempotence on a state where both directories exist. -/
theorem ensure_dirs_spec_witness :
    os_path_exists "../quartus" (ensure_dirs initState).fs = true ∧
    (pathPrefixes "../quartus").all
      (fun q => (ensure_dirs initState).fs.contains q) = true ∧
    (pathPrefixes SIM_DIR).all
      (fun q => (ensure_dirs initState).fs.contains q) = true ∧
    ensure_dirs dirsState = dirsState :=
  ⟨(ensure_dirs_spec initState).1,
   (ensure_dirs_spec initState).2.2.1 (by decide),
   (ensure_dirs_spec initState).2.2.2.1 (by decide),
   (ensure_dirs_spec dirsState).2.2.2.2 (by decide) (by decide)⟩

/-- C1: dispatching on the token `simulate` (in a run where the first two
tools succeed) issues exactly three external invocations, in order: the
library-creation command on the simulation directory, the compilation
command listing every configured source file in configured order, and the
batch-mode simulator run whose log and waveform paths lie inside the
configured simulation directory. -/
theorem main_simulate_three_calls (exec : List String → Nat)
    (outcome : RmtreeOutcome) (argv0 : String) (rest : List String) (s : State)
    (h1 : exec vlib_cmd = 0) (h2 : exec vlog_cmd = 0) :
    (main_block exec outcome (argv0 :: "simulate" :: rest) s).1.calls =
      s.calls ++ [vlib_cmd, vlog_cmd, vsim_batch_cmd] ∧
    vlib_cmd = ["vlib", SIM_DIR] ∧
    vlog_cmd = ["vlog", "-work", SIM_DIR] ++ VERILOG_FILES ∧
    vsim_batch_cmd =
      ["vsim"] ++ VSIM_OPTIONS ++
        ["-c", "-do", "log -r /* ; run -all; quit", TOP_MODULE, "-work", SIM_DIR,
         "-l", os_path_join SIM_DIR "simulation.log",
         "-wlf", os_path_join SIM_DIR "waveform.wlf"] ∧
    isUnder SIM_DIR (os_path_join SIM_DIR "simulation.log") = true ∧
    isUnder SIM_DIR (os_path_join SIM_DIR "waveform.wlf") = true := by
  have h1' : exec ["vlib", SIM_DIR] = 0 := h1
  have h2' : exec ("vlog" :: "-work" :: SIM_DIR :: VERILOG_FILES) = 0 := h2
  refine ⟨?_, rfl, rfl, rfl, by decide, by decide⟩
  simp [main_block, simulate, run_command, ensure_dirs, h1', h2',
    vlib_cmd, vlog_cmd, vsim_batch_cmd]

/-- Witness for C1: with an environment where every tool succeeds, a concrete
run from the initial state produces exactly the three commands. -/
theorem main_simulate_three_calls_witness :
    execAllZero vlib_cmd = 0 ∧ execAllZero vlog_cmd = 0 ∧
    (main_block execAllZero RmtreeOutcome.ok ["sim.py", "simulate"] initState).1.calls =
      initState.calls ++ [vlib_cmd, vlog_cmd, vsim_batch_cmd] :=
  ⟨rfl, rfl,
   (main_simulate_three_calls execAllZero RmtreeOutcome.ok "sim.py" [] initState
      rfl rfl).1⟩

/-- C2: when the compilation step exits non-zero, the simulator run is never
attempted (the trace stops after the two commands), the action propagates
the `CalledProcessError`, and the dispatcher exits with status 1. -/
theorem simulate_vlog_failure_aborts (exec : List String → Nat)
    (outcome : RmtreeOutcome) (argv0 : String) (rest : List String) (s : State)
    (h1 : exec vlib_cmd = 0) (h2 : exec vlog_cmd ≠ 0) :
    (simulate exec s).1.calls = s.calls ++ [vlib_cmd, vlog_cmd] ∧
    (simulate exec s).2 = Except.error ⟨exec vlog_cmd, vlog_cmd⟩ ∧
    (main_block exec outcome (argv0 :: "simulate" :: rest) s).2 = 1 := by
  have h1' : exec ["vlib", SIM_DIR] = 0 := h1
  have h2' : exec ("vlog" :: "-work" :: SIM_DIR :: VERILOG_FILES) ≠ 0 := h2
  refine ⟨?_, ?_, ?_⟩
  · simp [simulate, run_command, ensure_dirs, h1', h2', vlib_cmd, vlog_cmd]
  · simp [simulate, run_command, ensure_dirs, h1', h2', vlib_cmd, vlog_cmd]
  · simp [main_block, simulate, run_command, ensure_dirs, exitOf, h1', h2']

/-- Witness for C2: a concrete environment in which `vlog` exits with code 2
makes `simulate` stop after two invocations and fail. -/
theorem simulate_vlog_failure_aborts_witness :
    execVlogFails vlib_cmd = 0 ∧ execVlogFails vlog_cmd ≠ 0 ∧
    (simulate execVlogFails initState).1.calls =
      initState.calls ++ [vlib_cmd, vlog_cmd] ∧
    (main_block execVlogFails RmtreeOutcome.ok ["sim.py", "simulate"] initState).2 = 1 :=
  ⟨by decide, by decide,
   (simulate_vlog_failure_aborts execVlogFails RmtreeOutcome.ok "sim.py" []
      initState (by decide) (by decide)).1,
   (simulate_vlog_failure_aborts execVlogFails RmtreeOutcome.ok "sim.py" []
      initState (by decide) (by decide)).2.2⟩

/-- C7: the `view_wave` action issues exactly one external invocation, whose
arguments reference the waveform file path inside the configured simulation
directory, and it leaves the filesystem unchanged. -/
theorem view_wave_spec (exec : List String → Nat) (s : State) :
    (view_wave exec s).1.calls = s.calls ++ [view_wave_cmd] ∧
    view_wave_cmd = ["vsim", "-view", os_path_join SIM_DIR "waveform.wlf"] ∧
    (view_wave exec s).1.fs = s.fs ∧
    isUnder SIM_DIR (os_path_join SIM_DIR "waveform.wlf") = true := by
  refine ⟨?_, rfl, ?_, by decide⟩
  · simp [view_wave, run_command, view_wave_cmd]
  · simp [view_wave, run_command]

/-- C9: `simulate_gui` performs the same directory preparation and issues
the same first two external invocations as `simulate`, and its final
simulator invocation has no `-c` batch flag, no `-l` or `-wlf` output-path
arguments, and only the start-logging `-do` instruction. -/
theorem simulate_gui_spec (exec : List String → Nat) (s : State)
    (h1 : exec vlib_cmd = 0) (h2 : exec vlog_cmd = 0) :
    (simulate_gui exec s).1.calls = s.calls ++ [vlib_cmd, vlog_cmd, vsim_gui_cmd] ∧
    (simulate exec s).1.calls = s.calls ++ [vlib_cmd, vlog_cmd, vsim_batch_cmd] ∧
    (simulate_gui exec s).1.calls.take (s.calls.length + 2) =
      (simulate exec s).1.calls.take (s.calls.length + 2) ∧
    (simulate_gui exec s).1.fs = (simulate exec s).1.fs ∧
    vsim_gui_cmd =
      ["vsim"] ++ VSIM_OPTIONS ++ ["-do", "log -r /*", TOP_MODULE, "-work", SIM_DIR] ∧
    vsim_gui_cmd.contains "-c" = false ∧
    vsim_gui_cmd.contains "-l" = false ∧
    vsim_gui_cmd.contains "-wlf" = false ∧
    vsim_gui_cmd.contains "log -r /* ; run -all; quit" = false ∧
    vsim_gui_cmd.contains "log -r /*" = true := by
  have h1' : exec ["vlib", SIM_DIR] = 0 := h1
  have h2' : exec ("vlog" :: "-work" :: SIM_DIR :: VERILOG_FILES) = 0 := h2
  have hg : (simulate_gui exec s).1.calls =
      s.calls ++ [vlib_cmd, vlog_cmd, vsim_gui_cmd] := by
    simp [simulate_gui, run_command, ensure_dirs, h1', h2',
      vlib_cmd, vlog_cmd, vsim_gui_cmd]
  have hb : (simulate exec s).1.calls =
      s.calls ++ [vlib_cmd, vlog_cmd, vsim_batch_cmd] := by
    simp [simulate, run_command, ensure_dirs, h1', h2',
      vlib_cmd, vlog_cmd, vsim_batch_cmd]
  refine ⟨hg, hb, ?_, ?_, rfl, by decide, by decide, by decide, by decide, by decide⟩
  · rw [hg, hb, List.take_append, List.take_append]
    rfl
  · simp [simulate_gui, simulate, run_command, ensure_dirs, h1', h2']

/-- Witness for C9 in an environment where every tool succeeds. -/
theorem simulate_gui_spec_witness :
    execAllZero vlib_cmd = 0 ∧ execAllZero vlog_cmd = 0 ∧
    (simulate_gui execAllZero initState).1.calls =
      initState.calls ++ [vlib_cmd, vlog_cmd, vsim_gui_cmd] :=
  ⟨rfl, rfl, (simulate_gui_spec execAllZero initState rfl rfl).1⟩

/-- C10: `clean` suppresses every error of the recursive delete, not only
the missing-directory case: whatever the outcome of the OS-level removal
(success, a missing directory, a permission error partway, ...), the action
returns normally and prints the confirmation message. -/
theorem clean_always_succeeds (outcome : RmtreeOutcome) (s : State) :
    (clean outcome s).2 = Except.ok () ∧
    (clean outcome s).1.output = s.output ++ ["Cleaned simulation directory."] := by
  cases outcome <;> simp [clean, shutil_rmtree]

/-- C6: when the simulation directory does not exist, `clean` completes
without error, leaves the filesystem unchanged and prints the confirmation
message; when it exists and the removal runs normally, afterwards the
directory and everything below it are gone and the existence check is
false. -/
theorem clean_spec_cases (s : State) :
    (os_path_exists SIM_DIR s.fs = false →
      clean (RmtreeOutcome.oserror "FileNotFoundError" s.fs) s =
        ({ s with output := s.output ++ ["Cleaned simulation directory."] },
         Except.ok ())) ∧
    (os_path_exists SIM_DIR s.fs = true →
      (clean RmtreeOutcome.ok s).2 = Except.ok () ∧
      os_path_exists SIM_DIR (clean RmtreeOutcome.ok s).1.fs = false ∧
      (clean RmtreeOutcome.ok s).1.fs.all (fun q => !(isUnder SIM_DIR q)) = true ∧
      (clean RmtreeOutcome.ok s).1.output =
        s.output ++ ["Cleaned simulation directory."]) := by
  constructor
  · intro _
    simp [clean, shutil_rmtree]
  · intro _
    refine ⟨rfl, ?_, ?_, rfl⟩
    · have hfs : (clean RmtreeOutcome.ok s).1.fs = removeTree SIM_DIR s.fs := rfl
      rw [hfs]
      cases hx : os_path_exists SIM_DIR (removeTree SIM_DIR s.fs)
      · rfl
      · exfalso
        have hm : SIM_DIR ∈ removeTree SIM_DIR s.fs :=
          (os_path_exists_eq_true_iff _ _).mp hx
        have hu : (!(isUnder SIM_DIR SIM_DIR)) = true := (List.mem_filter.mp hm).2
        rw [isUnder_self] at hu
        cases hu
    · exact List.all_eq_true.mpr (fun q hq => (List.mem_filter.mp hq).2)

/-- Witness for C6 at concrete states: a run with no simulation directory and
a run with a populated one. -/
theorem clean_spec_cases_witness :
    os_path_exists SIM_DIR initState.fs = false ∧
    clean (RmtreeOutcome.oserror "FileNotFoundError" initState.fs) initState =
      ({ initState with
         output := initState.output ++ ["Cleaned simulation directory."] },
       Except.ok ()) ∧
    os_path_exists SIM_DIR simState.fs = true ∧
    os_path_exists SIM_DIR (clean RmtreeOutcome.ok simState).1.fs = false :=
  ⟨by decide, (clean_spec_cases initState).1 (by decide), by decide,
   ((clean_spec_cases simState).2 (by decide)).2.1⟩

/-- C4: with no command-line argument the dispatcher prints the usage text
and exits with a non-zero status, invoking no action and no external tool
and leaving the filesystem untouched. -/
theorem main_no_args_spec (exec : List String → Nat) (outcome : RmtreeOutcome)
    (s : State) (argv : List String) (h : argv.length < 2) :
    main_block exec outcome argv s = (print_help s, 1) ∧
    (main_block exec outcome argv s).2 ≠ 0 ∧
    (print_help s).calls = s.calls ∧
    (print_help s).fs = s.fs ∧
    (print_help s).output = s.output ++ [help_text] := by
  rcases argv with _ | ⟨a, _ | ⟨b, t⟩⟩
  · exact ⟨rfl, Nat.one_ne_zero, rfl, rfl, rfl⟩
  · exact ⟨rfl, Nat.one_ne_zero, rfl, rfl, rfl⟩
  · exact absurd h (by simp)

/-- Witness for C4: running the script with only its own name on `sys.argv`
prints usage and exits 1. -/
theorem main_no_args_spec_witness :
    (["sim.py"] : List String).length < 2 ∧
    main_block execAllZero RmtreeOutcome.ok ["sim.py"] initState =
      (print_help initState, 1) :=
  ⟨by decide,
   (main_no_args_spec execAllZero RmtreeOutcome.ok initState ["sim.py"]
      (by decide)).1⟩

/-- C5: the token `help` prints exactly the usage text printed by the
no-argument path, exits with status 0, invokes no external tool and leaves
the filesystem unchanged. -/
theorem main_help_spec (exec : List String → Nat) (outcome : RmtreeOutcome)
    (argv0 : String) (rest : List String) (s : State) :
    (main_block exec outcome (argv0 :: "help" :: rest) s).1.output =
      s.output ++ [help_text] ∧
    (main_block exec outcome (argv0 :: "help" :: rest) s).1.calls = s.calls ∧
    (main_block exec outcome (argv0 :: "help" :: rest) s).1.fs = s.fs ∧
    (main_block exec outcome (argv0 :: "help" :: rest) s).2 = 0 ∧
    (main_block exec outcome [argv0] s).1.output = s.output ++ [help_text] := by
  refine ⟨?_, ?_, ?_, ?_, rfl⟩ <;>
    simp [main_block, print_help]

/-- Counterexample for C3 as stated: on the unrecognized token `frobnicate`
the dispatcher prints the unknown-command message and the usage text but the
process exit status is 0, not a failure status, because the unknown-command
branch performs no `sys.exit` call. -/
theorem main_unknown_token_exits_zero :
    (main_block execAllZero RmtreeOutcome.ok ["sim.py", "frobnicate"] initState).2 = 0 ∧
    (main_block execAllZero RmtreeOutcome.ok ["sim.py", "frobnicate"] initState).1.output =
      ["Unknown command: frobnicate", help_text] := by
  constructor
  · rfl
  · rfl

/-- C3 (amended): on an unrecognized token the dispatcher prints the
unknown-command message and the usage text, invokes no external tool, leaves
the filesystem unchanged, and exits with status 0 (not a failure status). -/
theorem main_unknown_token_spec (exec : List String → Nat)
    (outcome : RmtreeOutcome) (argv0 cmd : String) (rest : List String) (s : State)
    (h1 : cmd ≠ "simulate") (h2 : cmd ≠ "simulate_gui") (h3 : cmd ≠ "view_wave")
    (h4 : cmd ≠ "clean") (h5 : cmd ≠ "help") :
    (main_block exec outcome (argv0 :: cmd :: rest) s).1.output =
      s.output ++ ["Unknown command: " ++ cmd, help_text] ∧
    (main_block exec outcome (argv0 :: cmd :: rest) s).1.calls = s.calls ∧
    (main_block exec outcome (argv0 :: cmd :: rest) s).1.fs = s.fs ∧
    (main_block exec outcome (argv0 :: cmd :: rest) s).2 = 0 := by
  refine ⟨?_, ?_, ?_, ?_⟩ <;>
    simp [main_block, print_help, h1, h2, h3, h4, h5]

/-- Witness for C3 (amended) at the concrete unrecognized token `bogus`. -/
theorem main_unknown_token_spec_witness :
    (main_block execAllZero RmtreeOutcome.ok ["sim.py", "bogus"] initState).1.output =
      initState.output ++ ["Unknown command: " ++ "bogus", help_text] ∧
    (main_block execAllZero RmtreeOutcome.ok ["sim.py", "bogus"] initState).2 = 0 :=
  ⟨(main_unknown_token_spec execAllZero RmtreeOutcome.ok "sim.py" "bogus" []
      initState (by decide) (by decide) (by decide) (by decide) (by decide)).1,
   (main_unknown_token_spec execAllZero RmtreeOutcome.ok "sim.py" "bogus" []
      initState (by decide) (by decide) (by decide) (by decide) (by decide)).2.2.2⟩

end Sim
